import Mathlib

/-!
Verification of the TMSU storage-access layer (fork: serva-energy/TMSU).

Shallow embedding of `storage/database/database.go`,
`storage/database/schema.go` and the `init` command (`cli` package).
Pure string manipulation (scheme detection, MySQL dialect rewriting) is
embedded directly over `List Char`; the relational store is embedded as an
explicit state record whose operations mirror the SQL statements issued by
the Go code (one statement, one Lean function); fallible operations return
`Except String`.
-/

/-- Boolean test for a successful `Except` result. -/
def isOkB {ε α : Type} : Except ε α → Bool
  | Except.ok _ => true
  | Except.error _ => false

/-- Boolean test for a failed `Except` result. -/
def isErrB {ε α : Type} : Except ε α → Bool
  | Except.ok _ => false
  | Except.error _ => true

/-- Extract a successful `Except` result, with a default for the error case. -/
def getOk {ε α : Type} (e : Except ε α) (d : α) : α :=
  match e with
  | Except.ok a => a
  | Except.error _ => d

/-! ## PathResolver: `GetScheme` / `HasScheme` (database.go lines 36-59)

`GetScheme` runs the Go regexp `\w+?:\/\/` (leftmost-first find, lazy
quantifier) over the path and strips the trailing `://` from the match.
Go's `\w` is ASCII `[0-9A-Za-z_]`. -/

/-- A word character in the sense of Go regexp `\w`: ASCII letter, digit or underscore. -/
def isWordChar (c : Char) : Bool :=
  c.isAlphanum || c = '_'

/-- Does the list start with the literal separator `://`? -/
def sepAfter : List Char → Bool
  | ':' :: '/' :: '/' :: _ => true
  | _ => false

/-- Attempt of the regexp `\w+?:\/\/` anchored at the head of the list: the
lazy `\w+?` consumes word characters only until the first point where `://`
follows.  Returns the matched word characters (the scheme), without the
separator, or `none` when no match starts here. -/
def schemeFrom : List Char → Option (List Char)
  | [] => none
  | c :: rest =>
    if isWordChar c then
      if sepAfter rest then some [c]
      else (schemeFrom rest).map (fun w => c :: w)
    else none

/-- Leftmost-first find of `\w+?:\/\/`: try each start position from the left,
as Go's `regexp.Find` does. -/
def findScheme : List Char → Option (List Char)
  | [] => none
  | c :: rest =>
    match schemeFrom (c :: rest) with
    | some w => some w
    | none => findScheme rest

/-- Go `GetScheme`: the part of the leftmost regexp match before `://`,
or the empty string when there is no match. -/
def GetScheme (path : String) : String :=
  match findScheme path.data with
  | some w => String.mk w
  | none => ""

/-- Go `HasScheme`: the scheme found by `GetScheme` has length greater
than one (schemes of length at most 1 are treated as no scheme). -/
def HasScheme (path : String) : Bool :=
  decide (1 < (GetScheme path).length)

/-- Spec-side predicate, written from the words of claim C3: the string
contains the separator `://` immediately preceded by at least two word
characters (anywhere in the string). -/
def specClaimHasScheme : List Char → Bool
  | a :: b :: rest => (isWordChar a && isWordChar b && sepAfter rest) || specClaimHasScheme (b :: rest)
  | _ => false

/-- Spec-side helper for the amended claim C3: the length of the word-character
run starting here that reaches a `://` separator, if any (the run stops at the
first separator it can reach). -/
def runToSep : List Char → Option Nat
  | [] => none
  | c :: rest =>
    if isWordChar c then
      if sepAfter rest then some 1
      else (runToSep rest).map (fun n => n + 1)
    else none

/-- Spec-side predicate for the amended claim C3: scanning from the left, at
the first position where a word-character run reaches `://`, succeed exactly
when that run has length at least two; later candidates are not considered. -/
def hasSchemeSpecA : List Char → Bool
  | [] => false
  | c :: rest =>
    match runToSep (c :: rest) with
    | some n => decide (2 ≤ n)
    | none => hasSchemeSpecA rest

/-! ## DialectTranslator: `finalizeQuery` / `compatMySql` (database.go lines 256-276)

Each Go `regexp.MustCompile(pat).ReplaceAllString(query, repl)` is embedded as
a left-to-right scan replacing non-overlapping matches.  The scans recurse on
a fuel argument initialised to the length of the input; every step consumes at
least one character, so the fuel never runs out on the initial call. -/

/-- A whitespace character in the sense of Go regexp `\s`: space, tab,
newline, form feed or carriage return. -/
def isSpaceGo (c : Char) : Bool :=
  c = ' ' || c = '\t' || c = '\n' || c = '\x0c' || c = '\r'

/-- Drop an exact literal from the head of the input, or fail. -/
def dropLit : List Char → List Char → Option (List Char)
  | [], l => some l
  | _ :: _, [] => none
  | c :: cs, d :: ds => if c = d then dropLit cs ds else none

/-- Drop one-or-more whitespace characters (`\s+`, greedy) from the head of
the input, or fail when the head is not whitespace. -/
def dropSpaces1 (l : List Char) : Option (List Char) :=
  match l with
  | c :: rest => if isSpaceGo c then some (rest.dropWhile isSpaceGo) else none
  | [] => none

/-- Match the regexp `INSERT\s+OR\s+IGNORE\s+` at the head of the input,
returning the remainder after the match. -/
def matchInsertOrIgnore (l : List Char) : Option (List Char) :=
  (dropLit "INSERT".data l).bind fun l1 =>
  (dropSpaces1 l1).bind fun l2 =>
  (dropLit "OR".data l2).bind fun l3 =>
  (dropSpaces1 l3).bind fun l4 =>
  (dropLit "IGNORE".data l4).bind fun l5 =>
  dropSpaces1 l5

/-- Match the regexp `INSERT\s+OR\s+REPLACE\s+` at the head of the input,
returning the remainder after the match. -/
def matchInsertOrReplace (l : List Char) : Option (List Char) :=
  (dropLit "INSERT".data l).bind fun l1 =>
  (dropSpaces1 l1).bind fun l2 =>
  (dropLit "OR".data l2).bind fun l3 =>
  (dropSpaces1 l3).bind fun l4 =>
  (dropLit "REPLACE".data l4).bind fun l5 =>
  dropSpaces1 l5

/-- Fuelled scan for `ReplaceAllString` of `\?\d+` by `?`: a question mark
followed by one-or-more digits (greedy) collapses to a bare question mark. -/
def fixPlaceholdersAux : Nat → List Char → List Char
  | 0, l => l
  | _ + 1, [] => []
  | fuel + 1, '?' :: rest =>
    match rest with
    | c :: rest2 =>
      if c.isDigit then '?' :: fixPlaceholdersAux fuel (rest2.dropWhile Char.isDigit)
      else '?' :: fixPlaceholdersAux fuel (c :: rest2)
    | [] => ['?']
  | fuel + 1, c :: rest => c :: fixPlaceholdersAux fuel rest

/-- Replace every `\?\d+` match by `?`. -/
def fixPlaceholders (l : List Char) : List Char :=
  fixPlaceholdersAux l.length l

/-- Fuelled scan for `ReplaceAllString` of `INSERT\s+OR\s+IGNORE\s+` by
the literal replacement `INSERT IGNORE `. -/
def fixInsertOrIgnoreAux : Nat → List Char → List Char
  | 0, l => l
  | _ + 1, [] => []
  | fuel + 1, c :: rest =>
    match matchInsertOrIgnore (c :: rest) with
    | some r => "INSERT IGNORE ".data ++ fixInsertOrIgnoreAux fuel r
    | none => c :: fixInsertOrIgnoreAux fuel rest

/-- Replace every `INSERT\s+OR\s+IGNORE\s+` match by `INSERT IGNORE `. -/
def fixInsertOrIgnore (l : List Char) : List Char :=
  fixInsertOrIgnoreAux l.length l

/-- Fuelled scan for `ReplaceAllString` of `INSERT\s+OR\s+REPLACE\s+` by
the literal replacement `REPLACE `. -/
def fixInsertOrReplaceAux : Nat → List Char → List Char
  | 0, l => l
  | _ + 1, [] => []
  | fuel + 1, c :: rest =>
    match matchInsertOrReplace (c :: rest) with
    | some r => "REPLACE ".data ++ fixInsertOrReplaceAux fuel r
    | none => c :: fixInsertOrReplaceAux fuel rest

/-- Replace every `INSERT\s+OR\s+REPLACE\s+` match by `REPLACE `. -/
def fixInsertOrReplace (l : List Char) : List Char :=
  fixInsertOrReplaceAux l.length l

/-- Replace every non-overlapping `==` by `=`. -/
def fixDoubleEquals : List Char → List Char
  | '=' :: '=' :: rest => '=' :: fixDoubleEquals rest
  | c :: rest => c :: fixDoubleEquals rest
  | [] => []

/-- Go `compatMySql`: the four rewrites applied in source order — positional
parameters, INSERT OR IGNORE, INSERT OR REPLACE, double equals. -/
def compatMySql (query : String) : String :=
  String.mk (fixDoubleEquals (fixInsertOrReplace (fixInsertOrIgnore (fixPlaceholders query.data))))

/-- Go `Tx`: a transaction tagged with the registered driver name of the
connection it came from (the `*sql.Tx` handle itself is external state and is
not part of the claims). -/
structure Tx where
  driver : String
deriving DecidableEq

/-- Go `finalizeQuery`: switch on the transaction's driver; only the
`mysql` driver rewrites the statement. -/
def finalizeQuery (tx : Tx) (query : String) : String :=
  if tx.driver = "mysql" then compatMySql query else query

/-! ## SchemaVersionStore and SchemaManager (schema.go)

The relational store is embedded as a record.  A table created by
`CREATE TABLE IF NOT EXISTS` is `some rows` (present) or `none` (absent);
tables whose rows no claim inspects are tracked as presence flags only.
A row of the `version` table is its list of column values, so that a legacy
three-column store and a current four-column store can both be represented.
Created index names are collected in a list (`CREATE INDEX IF NOT EXISTS`). -/

/-- Go `common.Version`: the three-part version. -/
structure Version where
  major : Nat
  minor : Nat
  patch : Nat
deriving DecidableEq

/-- Go `schemaVersion` (schema.go): an embedded `common.Version` plus a revision. -/
structure schemaVersion where
  version : Version
  revision : Nat
deriving DecidableEq

/-- Go `latestSchemaVersion = schemaVersion{common.Version{0, 7, 0}, 1}`. -/
def latestSchemaVersion : schemaVersion :=
  { version := { major := 0, minor := 7, patch := 0 }, revision := 1 }

/-- A row of the `tag` table: `id INTEGER PRIMARY KEY, name VARCHAR(255) NOT NULL`. -/
structure TagRow where
  id : Nat
  name : String
deriving DecidableEq

/-- A row of the `value` table: `id INTEGER PRIMARY KEY, name VARCHAR(255) NOT NULL,
CONSTRAINT con_value_name UNIQUE (name)`. -/
structure ValueRow where
  id : Nat
  name : String
deriving DecidableEq

/-- The embedded relational store. -/
structure Store where
  tagTable : Option (List TagRow)
  fileTable : Bool
  valueTable : Option (List ValueRow)
  fileTagTable : Bool
  implicationTable : Bool
  queryTable : Bool
  settingTable : Bool
  versionTable : Option (List (List Nat))
  indexes : List String
deriving DecidableEq

/-- A never-before-used store: no tables, no indexes. -/
def freshStore : Store :=
  { tagTable := none, fileTable := false, valueTable := none, fileTagTable := false,
    implicationTable := false, queryTable := false, settingTable := false,
    versionTable := none, indexes := [] }

/-- Effect of `CREATE INDEX IF NOT EXISTS name ...`. -/
def createIndexIfNotExists (s : Store) (name : String) : Store :=
  if s.indexes.contains name then s else { s with indexes := s.indexes ++ [name] }

/-- Go `createTagTable`: `CREATE TABLE IF NOT EXISTS tag (id INTEGER PRIMARY KEY,
name VARCHAR(255) NOT NULL)` then `CREATE INDEX IF NOT EXISTS idx_tag_name ON
tag(name)`.  The DDL declares no uniqueness for `name`; the index is plain. -/
def createTagTable (s : Store) : Except String Store :=
  let s1 := if s.tagTable.isSome then s else { s with tagTable := some [] }
  Except.ok (createIndexIfNotExists s1 "idx_tag_name")

/-- Go `createFileTable`: the `file` table plus `idx_file_fingerprint`. -/
def createFileTable (s : Store) : Except String Store :=
  let s1 := { s with fileTable := true }
  Except.ok (createIndexIfNotExists s1 "idx_file_fingerprint")

/-- Go `createValueTable`: `CREATE TABLE IF NOT EXISTS value (id INTEGER PRIMARY
KEY, name VARCHAR(255) NOT NULL, CONSTRAINT con_value_name UNIQUE (name))`. -/
def createValueTable (s : Store) : Except String Store :=
  Except.ok (if s.valueTable.isSome then s else { s with valueTable := some [] })

/-- Go `createFileTagTable`: the `file_tag` table plus its three indexes. -/
def createFileTagTable (s : Store) : Except String Store :=
  let s1 := { s with fileTagTable := true }
  let s2 := createIndexIfNotExists s1 "idx_file_tag_file_id"
  let s3 := createIndexIfNotExists s2 "idx_file_tag_tag_id"
  Except.ok (createIndexIfNotExists s3 "idx_file_tag_value_id")

/-- Go `createImplicationTable`. -/
def createImplicationTable (s : Store) : Except String Store :=
  Except.ok { s with implicationTable := true }

/-- Go `createQueryTable`. -/
def createQueryTable (s : Store) : Except String Store :=
  Except.ok { s with queryTable := true }

/-- Go `createSettingTable`. -/
def createSettingTable (s : Store) : Except String Store :=
  Except.ok { s with settingTable := true }

/-- Go `createVersionTable`: `CREATE TABLE IF NOT EXISTS version (major INT NOT
NULL, minor INT NOT NULL, patch INT NOT NULL, revision INT NOT NULL,
PRIMARY KEY (major, minor, patch, revision))`. -/
def createVersionTable (s : Store) : Except String Store :=
  Except.ok (if s.versionTable.isSome then s else { s with versionTable := some [] })

/-- Go `insertDefaultValue`: `INSERT INTO value (id, name) VALUES (?, ?)` with
arguments `0, "dummy"`.  The insert fails when the primary key on `id` or the
unique constraint on `name` is violated; a successful single-row insert
affects exactly one row, so the rows-affected check then passes. -/
def insertDefaultValue (s : Store) : Except String Store :=
  match s.valueTable with
  | none => Except.error "could not insert default value: no such table: value"
  | some rows =>
    if rows.any (fun r => r.id == 0 || r.name == "dummy") then
      Except.error "could not insert default value: UNIQUE constraint failed"
    else
      Except.ok { s with valueTable := some (rows ++ [{ id := 0, name := "dummy" }]) }

/-- Go `insertSchemaVersion`: `INSERT INTO version (major, minor, patch,
revision) VALUES (?, ?, ?, ?)`.  The insert fails when the composite primary
key is violated; a successful single-row insert affects exactly one row, so
the rows-affected check (`rowsAffected != 1`) then passes. -/
def insertSchemaVersion (s : Store) (v : schemaVersion) : Except String Store :=
  match s.versionTable with
  | none => Except.error "could not update schema version: no such table: version"
  | some rows =>
    if rows.contains [v.version.major, v.version.minor, v.version.patch, v.revision] then
      Except.error "could not update schema version: UNIQUE constraint failed"
    else
      let newRows := rows ++ [[v.version.major, v.version.minor, v.version.patch, v.revision]]
      Except.ok { s with versionTable := some newRows }

/-- Go `currentSchemaVersion`: `SELECT * FROM version`, take the first row if
any.  Scanning four columns succeeds only when the row has four columns; on a
scan error the code falls back to scanning three columns and ignores errors,
so the variables keep their zero initialisation where nothing was decoded.  A
failed query (table absent) and an empty table likewise yield the zero
version; the function never returns an error. -/
def currentSchemaVersion (s : Store) : schemaVersion :=
  match s.versionTable with
  | some ((ma :: mi :: pa :: re :: []) :: _) =>
    { version := { major := ma, minor := mi, patch := pa }, revision := re }
  | some ((ma :: mi :: pa :: []) :: _) =>
    { version := { major := ma, minor := mi, patch := pa }, revision := 0 }
  | _ => { version := { major := 0, minor := 0, patch := 0 }, revision := 0 }

/-- The number of rows the issued `UPDATE version SET major = ?, minor = ?,
patch = ?, revision = ?` affects on a version table with the given rows:
`none` when the statement itself fails because the table does not have the
four-column shape (a legacy table lacks the `revision` column the statement
sets), otherwise every row of the table, since the statement has no WHERE
clause. -/
def updateAffectedRows (rows : List (List Nat)) : Option Nat :=
  if rows.any (fun r => r.length != 4) then none else some rows.length

/-- Go `updateSchemaVersion`: read the current version; if it already equals
the target, return nil without issuing the update.  Otherwise issue
`UPDATE version SET major = ?, minor = ?, patch = ?, revision = ?` (no WHERE
clause: it touches every row of the table).  The `tx.Exec` itself fails with
a no-such-column error (wrapped by the Go code) when the table does not have
the four-column shape, as on a legacy store whose `version` table lacks the
`revision` column; otherwise the call fails unless exactly one row was
affected. -/
def updateSchemaVersion (s : Store) (v : schemaVersion) : Except String Store :=
  if currentSchemaVersion s = v then Except.ok s
  else
    match s.versionTable with
    | none => Except.error "could not update schema version: no such table: version"
    | some rows =>
      if rows.any (fun r => r.length != 4) then
        Except.error "could not update schema version: no such column: revision"
      else if rows.length ≠ 1 then
        Except.error "version could not be updated: expected exactly one row to be affected"
      else
        let newRows := rows.map (fun _ => [v.version.major, v.version.minor, v.version.patch, v.revision])
        Except.ok { s with versionTable := some newRows }

/-- Go `createSchema`: the eight table creations in source order, then the
default `value` row, then the latest schema version. -/
def createSchema (s : Store) : Except String Store := do
  let s ← createTagTable s
  let s ← createFileTable s
  let s ← createValueTable s
  let s ← createFileTagTable s
  let s ← createImplicationTable s
  let s ← createQueryTable s
  let s ← createSettingTable s
  let s ← createVersionTable s
  let s ← insertDefaultValue s
  let s ← insertSchemaVersion s latestSchemaVersion
  Except.ok s

/-- The store produced by `createSchema` on a fresh store. -/
def store1 : Store :=
  { tagTable := some [], fileTable := true,
    valueTable := some [{ id := 0, name := "dummy" }],
    fileTagTable := true, implicationTable := true, queryTable := true,
    settingTable := true, versionTable := some [[0, 7, 0, 1]],
    indexes := ["idx_tag_name", "idx_file_fingerprint", "idx_file_tag_file_id",
                "idx_file_tag_tag_id", "idx_file_tag_value_id"] }

/-! ## Constraints the DDL places on table contents (claim C2)

`createTagTable` declares `id INTEGER PRIMARY KEY` and nothing else about
uniqueness; `idx_tag_name` is a plain (non-unique) index.  `createValueTable`
additionally declares `CONSTRAINT con_value_name UNIQUE (name)`. -/

/-- Row sets the `tag` table as created by `createTagTable` admits: only the
primary key on `id` constrains them. -/
def tagRowsAdmitted (rows : List TagRow) : Prop :=
  (rows.map TagRow.id).Nodup

/-- Row sets the `value` table as created by `createValueTable` admits:
primary key on `id` and the unique constraint on `name`. -/
def valueRowsAdmitted (rows : List ValueRow) : Prop :=
  (rows.map ValueRow.id).Nodup ∧ (rows.map ValueRow.name).Nodup

/-- Spec-side predicate, written from the words of claim C2: no two rows of
the tag table carry the same name. -/
def tagNamesUnique (rows : List TagRow) : Prop :=
  (rows.map TagRow.name).Nodup

/-! ## ConnectionFactory: `OpenAt` (database.go lines 111-143)

The filesystem and driver are external collaborators; their outcomes are
parameters of the model.  `OpenAt` stats the path, and only when the stat
failed and the path carries no scheme does it classify the failure; it then
opens the database, begins a transaction, upgrades the schema and commits,
exactly in the order of the Go code. -/

/-- Outcome of `os.Stat(path)`. -/
inductive StatOutcome
  | statOk
  | statNotExist
  | statOtherErr
deriving DecidableEq, BEq

/-- The distinguished error values of the database layer. -/
inductive DbError
  | databaseNotFoundError (path : String)
  | databaseAccessError (path : String)
  | databaseTransactionError (path : String)
  | upgradeFailed
deriving DecidableEq

/-- Outcomes of the external calls `OpenAt` makes, in call order. -/
structure OpenEnv where
  stat : StatOutcome
  openOk : Bool
  beginOk : Bool
  upgradeOk : Bool
  commitOk : Bool
deriving DecidableEq

/-- Go `OpenAt`. -/
def OpenAt (env : OpenEnv) (path : String) : Except DbError Unit :=
  if env.stat ≠ StatOutcome.statOk ∧ HasScheme path = false then
    match env.stat with
    | StatOutcome.statNotExist => Except.error (DbError.databaseNotFoundError path)
    | _ => Except.error (DbError.databaseAccessError path)
  else if !env.openOk then Except.error (DbError.databaseAccessError path)
  else if !env.beginOk then Except.error (DbError.databaseTransactionError path)
  else if !env.upgradeOk then Except.error DbError.upgradeFailed
  else if !env.commitOk then Except.error (DbError.databaseTransactionError path)
  else Except.ok ()

/-! ## The `init` command: `initExec` (cli package, src/unnamed/part_000)

`initializeDatabase`, `insertRootPath` and the store creation behind
`storage.CreateAt` act on the filesystem and a database; their outcomes per
path are parameters of the model.  `filepath.Join` is modelled as
slash-separated concatenation. -/

/-- Outcomes of the external calls the `init` command makes. -/
structure InitEnv where
  getwd : Except String String
  createAt : String → Except String Unit
  hasRootPathOption : Bool
  rootPathResult : String → Except String Unit

/-- Go `initializeDatabase`: for a scheme-less path, create the `.tmsu`
directory under it (the `os.Mkdir` error is ignored by the Go code) and
create the store at `path/.tmsu/db`; for a scheme-carrying path, create the
store at the path itself. -/
def initializeDatabase (env : InitEnv) (path : String) : Except String Unit :=
  if HasScheme path then env.createAt path
  else env.createAt (path ++ "/.tmsu/db")

/-- Go `insertRootPath`: only acts when the path carries a scheme and the
`--root-path` option was supplied; otherwise returns nil. -/
def insertRootPath (env : InitEnv) (path : String) : Except String Unit :=
  if HasScheme path && env.hasRootPathOption then env.rootPathResult path
  else Except.ok ()

/-- The warning the body of the `initExec` loop produces for one path: one
warning when `initializeDatabase` fails, one when it succeeds but
`insertRootPath` fails, none otherwise. -/
def warnFor (env : InitEnv) (path : String) : Option String :=
  match initializeDatabase env path with
  | Except.error e => some (path ++ ": could not initialize database: " ++ e)
  | Except.ok _ =>
    match insertRootPath env path with
    | Except.error e => some (path ++ ": could not initialize database with root path: " ++ e)
    | Except.ok _ => none

/-- The `initExec` loop over the selected paths, collecting warnings in
order; no failure aborts the loop. -/
def initLoop (env : InitEnv) : List String → List String
  | [] => []
  | p :: rest =>
    match warnFor env p with
    | some w => w :: initLoop env rest
    | none => initLoop env rest

/-- Go `initExec`: when the configured database path carries a scheme the
positional arguments are replaced by that single path; otherwise, with no
arguments, the working directory is used (failing the whole command only if
it cannot be determined).  The command then processes every selected path and
returns a nil error together with the collected warnings. -/
def initExec (env : InitEnv) (args : List String) (databasePath : String) :
    Option String × List String :=
  if HasScheme databasePath then (none, initLoop env [databasePath])
  else if args.isEmpty then
    match env.getwd with
    | Except.error e => (some ("could not identify working directory: " ++ e), [])
    | Except.ok wd => (none, initLoop env [wd])
  else (none, initLoop env args)

/-- A concrete environment for witnesses: creating the store under `/bad`
fails, everything else succeeds. -/
def envW : InitEnv :=
  { getwd := Except.ok "/wd"
    createAt := fun p => if p = "/bad/.tmsu/db" then Except.error "permission denied" else Except.ok ()
    hasRootPathOption := false
    rootPathResult := fun _ => Except.ok () }

/-- A store whose version table holds exactly the single latest version row. -/
def storeV1 : Store := { freshStore with versionTable := some [[0, 7, 0, 1]] }

/-- A store whose version table exists and is empty. -/
def storeV0 : Store := { freshStore with versionTable := some [] }

/-- A store whose version table is a legacy three-column table with one row
(no `revision` column). -/
def storeLegacy : Store := { freshStore with versionTable := some [[1, 2, 3]] }

/-! ## Helper lemmas -/

/-- The lazy scheme match and the spec-side run length agree: the length of
the word-character run `schemeFrom` matches is what `runToSep` computes. -/
theorem schemeFrom_length (l : List Char) :
    (schemeFrom l).map List.length = runToSep l := by
  induction l with
  | nil => rfl
  | cons c rest ih =>
    simp only [schemeFrom, runToSep]
    cases hw : isWordChar c with
    | false => simp [hw]
    | true =>
      cases hs : sepAfter rest with
      | true => simp [hw, hs]
      | false =>
        simp only [hw, hs, if_true, if_false, Bool.false_eq_true, ite_false, ite_true]
        rw [← ih]
        cases schemeFrom rest <;> rfl

/-- The leftmost regexp find yields a scheme longer than one character exactly
when the amended spec predicate holds. -/
theorem hasScheme_eq_specA (l : List Char) :
    (match findScheme l with
      | some w => decide (1 < w.length)
      | none => false) = hasSchemeSpecA l := by
  induction l with
  | nil => rfl
  | cons c rest ih =>
    have h := schemeFrom_length (c :: rest)
    simp only [findScheme, hasSchemeSpecA]
    rw [← h]
    cases hsf : schemeFrom (c :: rest) with
    | some w => rfl
    | none => exact ih

/-- The `initExec` loop collects exactly the per-path warnings, in path order. -/
theorem initLoop_eq_filterMap (env : InitEnv) (paths : List String) :
    initLoop env paths = paths.filterMap (warnFor env) := by
  induction paths with
  | nil => rfl
  | cons p rest ih =>
    simp only [initLoop, List.filterMap_cons]
    cases warnFor env p <;> simp [ih]

/-! ## Claims -/

/-- Claim C1, counterexample: `createSchema` is not idempotent.  On a fresh
store the first invocation succeeds, but the second invocation in succession
returns an error (the default-value insert violates the primary key of the
`value` table), contradicting the claim that the second call produces no
error. -/
theorem c1_counterexample :
    isOkB (createSchema freshStore) = true
    ∧ isErrB (Except.bind (createSchema freshStore) createSchema) = true := by
  exact ⟨rfl, rfl⟩

/-- Claim C1, amended: on a fresh store `createSchema` succeeds and leaves
exactly one row in `version` and exactly one row in `value` with id 0; every
table/index creation statement is individually idempotent (re-running each
one on the initialized store is a no-op), but `createSchema` as a whole is
not: its second invocation fails at the default-value insert, and the two
tables keep the single row each from the first invocation. -/
theorem c1_theorem :
    createSchema freshStore = Except.ok store1
    ∧ store1.versionTable = some [[0, 7, 0, 1]]
    ∧ store1.valueTable = some [{ id := 0, name := "dummy" }]
    ∧ isErrB (createSchema store1) = true
    ∧ createTagTable store1 = Except.ok store1
    ∧ createFileTable store1 = Except.ok store1
    ∧ createValueTable store1 = Except.ok store1
    ∧ createFileTagTable store1 = Except.ok store1
    ∧ createImplicationTable store1 = Except.ok store1
    ∧ createQueryTable store1 = Except.ok store1
    ∧ createSettingTable store1 = Except.ok store1
    ∧ createVersionTable store1 = Except.ok store1 := by
  exact ⟨rfl, rfl, rfl, rfl, rfl, rfl, rfl, rfl, rfl, rfl, rfl, rfl⟩

/-- Claim C2, counterexample: the `tag` table created by `createTagTable`
does not enforce uniqueness of `name`.  Two rows with distinct ids but the
same name satisfy every constraint the DDL declares, refuting the claim that
no two rows may carry the same name. -/
theorem c2_counterexample :
    tagRowsAdmitted [{ id := 1, name := "art" }, { id := 2, name := "art" }]
    ∧ ¬ tagNamesUnique [{ id := 1, name := "art" }, { id := 2, name := "art" }] := by
  unfold tagRowsAdmitted tagNamesUnique
  exact ⟨by decide, by decide⟩

/-- Claim C2, amended: the schema created for the `tag` table enforces
uniqueness of `id` only (its primary key); `name` carries a plain non-unique
index, so any two rows with distinct ids are admitted even when their names
coincide — unlike the `value` table, whose unique constraint on `name`
rejects the same pair. -/
theorem c2_theorem (i j : Nat) (n : String) (h : i ≠ j) :
    tagRowsAdmitted [{ id := i, name := n }, { id := j, name := n }]
    ∧ ¬ valueRowsAdmitted [{ id := i, name := n }, { id := j, name := n }] := by
  constructor
  · simp [tagRowsAdmitted, h]
  · intro hv
    have := hv.2
    simp at this

/-- Witness for claim C2's amended theorem at a concrete pair of rows. -/
theorem c2_witness :
    tagRowsAdmitted [{ id := 1, name := "beta" }, { id := 2, name := "beta" }]
    ∧ ¬ valueRowsAdmitted [{ id := 1, name := "beta" }, { id := 2, name := "beta" }] :=
  c2_theorem 1 2 "beta" (by decide)

/-- Claim C3, counterexample: `HasScheme` is not equivalent to "the string
contains `://` preceded by at least two word characters".  The string
`x://ab://c` contains `://` immediately preceded by the two word characters
`ab`, yet `HasScheme` is false, because the leftmost regexp match is the
one-character scheme `x`. -/
theorem c3_counterexample :
    HasScheme "x://ab://c" = false ∧ specClaimHasScheme ("x://ab://c").data = true := by
  exact ⟨rfl, rfl⟩

/-- Claim C3, amended: `HasScheme(s)` is true iff the LEFTMOST word-character
run in `s` that reaches a `://` separator has length at least two (a
one-character candidate earlier in the string masks any later separator);
the claim's examples hold: `mysql://host/db` is true with scheme `mysql`,
`/tmp/db` is false, and `x://y` is false because the scheme has length 1. -/
theorem c3_theorem :
    (∀ s : String, HasScheme s = hasSchemeSpecA s.data)
    ∧ GetScheme "mysql://host/db" = "mysql"
    ∧ HasScheme "mysql://host/db" = true
    ∧ HasScheme "/tmp/db" = false
    ∧ HasScheme "x://y" = false := by
  refine ⟨?_, rfl, rfl, rfl, rfl⟩
  intro s
  have h := hasScheme_eq_specA s.data
  rw [← h]
  unfold HasScheme GetScheme
  cases findScheme s.data with
  | some w => rfl
  | none => rfl

/-- Claim C4: every statement on a transaction bound to the mysql driver is
rewritten by applying, in order, the placeholder collapse, the INSERT OR
IGNORE rewrite, the INSERT OR REPLACE rewrite and the double-equals rewrite;
a statement on a transaction bound to any other driver passes through
unchanged.  The four rewrites behave as the spec's examples require. -/
theorem c4_theorem (tx : Tx) (q : String) :
    (tx.driver = "mysql" →
      finalizeQuery tx q =
        String.mk (fixDoubleEquals (fixInsertOrReplace (fixInsertOrIgnore (fixPlaceholders q.data)))))
    ∧ (tx.driver ≠ "mysql" → finalizeQuery tx q = q)
    ∧ compatMySql "INSERT OR IGNORE INTO x VALUES (?1, ?2)" = "INSERT IGNORE INTO x VALUES (?, ?)"
    ∧ compatMySql "INSERT OR REPLACE INTO x VALUES (?1)" = "REPLACE INTO x VALUES (?)"
    ∧ compatMySql "SELECT id FROM x WHERE a == ?" = "SELECT id FROM x WHERE a = ?"
    ∧ compatMySql "SELECT ?2" = "SELECT ?" := by
  refine ⟨?_, ?_, rfl, rfl, rfl, rfl⟩
  · intro h
    simp [finalizeQuery, compatMySql, h]
  · intro h
    simp [finalizeQuery, h]

/-- Witness for claim C4 at a concrete mysql transaction and a concrete
non-mysql transaction. -/
theorem c4_witness :
    finalizeQuery { driver := "mysql" } "a == ?1" = "a = ?"
    ∧ finalizeQuery { driver := "sqlite3" } "a == ?1" = "a == ?1" := by
  constructor
  · rw [(c4_theorem { driver := "mysql" } "a == ?1").1 rfl]
    rfl
  · exact (c4_theorem { driver := "sqlite3" } "a == ?1").2.1 (by decide)

/-- Claim C5: when the store's current version already equals the target,
`updateSchemaVersion` is a no-op — it issues no update, changes nothing and
returns no error; when it differs, it succeeds exactly when the issued
update affects exactly one row, and returns an error otherwise — both when
the statement touches a number of rows other than one (it has no WHERE
clause) and when the statement itself fails because the table lacks the
`revision` column, affecting no rows at all. -/
theorem c5_theorem (s : Store) (v : schemaVersion) :
    (currentSchemaVersion s = v → updateSchemaVersion s v = Except.ok s)
    ∧ (currentSchemaVersion s ≠ v →
        (isOkB (updateSchemaVersion s v) = true ↔ updateAffectedRows (s.versionTable.getD []) = some 1)) := by
  constructor
  · intro h
    simp [updateSchemaVersion, h]
  · intro h
    simp only [updateSchemaVersion, if_neg h]
    cases hv : s.versionTable with
    | none => simp [isOkB, updateAffectedRows]
    | some rows =>
      simp only [Option.getD, updateAffectedRows]
      by_cases hc : rows.any (fun r => r.length != 4) = true
      · simp [hc, isOkB]
      · by_cases hl : rows.length = 1
        · simp [hc, hl, isOkB]
        · simp [hc, hl, isOkB]

/-- Witness for claim C5: on a single-row four-column store, updating to the
stored version is a no-op and updating to a different version succeeds; on a
legacy three-column single-row store the update fails even though the table
has one row, because the issued statement fails. -/
theorem c5_witness :
    updateSchemaVersion storeV1 latestSchemaVersion = Except.ok storeV1
    ∧ isOkB (updateSchemaVersion storeV1 { version := { major := 0, minor := 8, patch := 0 }, revision := 0 }) = true
    ∧ isOkB (updateSchemaVersion storeLegacy latestSchemaVersion) = false := by
  refine ⟨?_, ?_, ?_⟩
  · exact (c5_theorem storeV1 latestSchemaVersion).1 rfl
  · exact ((c5_theorem storeV1 { version := { major := 0, minor := 8, patch := 0 }, revision := 0 }).2 (by decide)).mpr rfl
  · have h := (c5_theorem storeLegacy latestSchemaVersion).2 (by decide)
    cases hb : isOkB (updateSchemaVersion storeLegacy latestSchemaVersion) with
    | false => rfl
    | true => exact absurd (h.mp hb) (by decide)

/-- Claim C6: on a store whose version table is empty, `insertSchemaVersion v`
succeeds, affects exactly one row (the table grows from zero rows to one),
and a subsequent `currentSchemaVersion` returns a version structurally equal
to `v`. -/
theorem c6_theorem (s : Store) (v : schemaVersion) (h : s.versionTable = some []) :
    ∃ s2, insertSchemaVersion s v = Except.ok s2
      ∧ currentSchemaVersion s2 = v
      ∧ (s2.versionTable.getD []).length = (s.versionTable.getD []).length + 1 := by
  refine ⟨{ s with versionTable := some [[v.version.major, v.version.minor, v.version.patch, v.revision]] }, ?_, ?_, ?_⟩
  · simp [insertSchemaVersion, h]
  · cases v with
    | mk ver rev => cases ver with
      | mk ma mi pa => simp [currentSchemaVersion]
  · simp [h]

/-- Witness for claim C6: the round trip at a concrete version on a concrete
empty-version-table store. -/
theorem c6_witness :
    currentSchemaVersion (getOk (insertSchemaVersion storeV0 { version := { major := 1, minor := 2, patch := 3 }, revision := 4 }) freshStore)
      = { version := { major := 1, minor := 2, patch := 3 }, revision := 4 } := by
  obtain ⟨s2, h1, h2, _⟩ := c6_theorem storeV0 { version := { major := 1, minor := 2, patch := 3 }, revision := 4 } rfl
  rw [h1]
  exact h2

/-- Claim C7: `currentSchemaVersion` never propagates an error — it is a
total function into `schemaVersion`.  When the single version row lacks the
`revision` column (a legacy three-column store), it decodes the three parts
and reports revision zero instead of failing; when the row has all four
columns they are decoded; even a failed query (absent table) degrades to the
zero version rather than an error. -/
theorem c7_theorem (s : Store) (ma mi pa re : Nat) :
    (s.versionTable = some [[ma, mi, pa]] →
      currentSchemaVersion s = { version := { major := ma, minor := mi, patch := pa }, revision := 0 })
    ∧ (∀ rest, s.versionTable = some ([ma, mi, pa, re] :: rest) →
      currentSchemaVersion s = { version := { major := ma, minor := mi, patch := pa }, revision := re })
    ∧ (s.versionTable = none →
      currentSchemaVersion s = { version := { major := 0, minor := 0, patch := 0 }, revision := 0 }) := by
  refine ⟨?_, ?_, ?_⟩
  · intro h
    simp [currentSchemaVersion, h]
  · intro rest h
    simp [currentSchemaVersion, h]
  · intro h
    simp [currentSchemaVersion, h]

/-- Witness for claim C7 at a concrete legacy store, a concrete current
store and a store with no version table. -/
theorem c7_witness :
    currentSchemaVersion { freshStore with versionTable := some [[4, 5, 6]] }
      = { version := { major := 4, minor := 5, patch := 6 }, revision := 0 }
    ∧ currentSchemaVersion { freshStore with versionTable := some [[0, 7, 0, 1]] }
      = { version := { major := 0, minor := 7, patch := 0 }, revision := 1 }
    ∧ currentSchemaVersion freshStore
      = { version := { major := 0, minor := 0, patch := 0 }, revision := 0 } :=
  ⟨(c7_theorem _ 4 5 6 0).1 rfl, (c7_theorem _ 0 7 0 1).2.1 [] rfl, (c7_theorem _ 0 0 0 0).2.2 rfl⟩

/-- Claim C8: for a scheme-less path, a stat failure of the not-exist kind
makes `OpenAt` fail with the distinguished not-found error and any other
stat failure with the distinguished access error; a path with a scheme skips
the existence check entirely (the stat outcome is irrelevant); and a failure
to open the database yields the access error. -/
theorem c8_theorem (env : OpenEnv) (path : String) :
    (HasScheme path = false → env.stat = StatOutcome.statNotExist →
      OpenAt env path = Except.error (DbError.databaseNotFoundError path))
    ∧ (HasScheme path = false → env.stat = StatOutcome.statOtherErr →
      OpenAt env path = Except.error (DbError.databaseAccessError path))
    ∧ (HasScheme path = true → OpenAt env path = OpenAt { env with stat := StatOutcome.statOk } path)
    ∧ (env.openOk = false → (env.stat = StatOutcome.statOk ∨ HasScheme path = true) →
      OpenAt env path = Except.error (DbError.databaseAccessError path)) := by
  refine ⟨?_, ?_, ?_, ?_⟩
  · intro h1 h2
    simp [OpenAt, h1, h2]
  · intro h1 h2
    simp [OpenAt, h1, h2]
  · intro h
    simp [OpenAt, h]
  · intro h1 h2
    cases h2 with
    | inl h2 => simp [OpenAt, h1, h2]
    | inr h2 => simp [OpenAt, h1, h2]

/-- Witness for claim C8: a never-initialized local path yields the
not-found error, and a scheme-carrying path ignores the stat outcome. -/
theorem c8_witness :
    OpenAt { stat := StatOutcome.statNotExist, openOk := true, beginOk := true, upgradeOk := true, commitOk := true } "/home/u/.tmsu/db"
      = Except.error (DbError.databaseNotFoundError "/home/u/.tmsu/db")
    ∧ OpenAt { stat := StatOutcome.statOtherErr, openOk := true, beginOk := true, upgradeOk := true, commitOk := true } "mysql://host/db"
      = OpenAt { stat := StatOutcome.statOk, openOk := true, beginOk := true, upgradeOk := true, commitOk := true } "mysql://host/db" := by
  constructor
  · exact (c8_theorem _ "/home/u/.tmsu/db").1 rfl rfl
  · exact (c8_theorem { stat := StatOutcome.statOtherErr, openOk := true, beginOk := true, upgradeOk := true, commitOk := true } "mysql://host/db").2.2.1 rfl

/-- Claim C9: over the list of target paths given to the `init` command
(scheme-less database path), a failure to initialize one path does not abort
the batch — the command returns no error, its warning list is exactly the
per-path warnings of every processed path in order, and every failed path
contributes exactly one warning that begins with that path. -/
theorem c9_theorem (env : InitEnv) (args : List String) (databasePath : String)
    (h1 : HasScheme databasePath = false) (h2 : args ≠ []) :
    (initExec env args databasePath).1 = none
    ∧ (initExec env args databasePath).2 = args.filterMap (warnFor env)
    ∧ ∀ p, p ∈ args → isErrB (initializeDatabase env p) = true →
        ∃ e, warnFor env p = some (p ++ ": could not initialize database: " ++ e) := by
  have hA : args.isEmpty = false := by
    cases args with
    | nil => exact absurd rfl h2
    | cons a as => rfl
  refine ⟨?_, ?_, ?_⟩
  · simp [initExec, h1, hA]
  · simp [initExec, h1, hA, initLoop_eq_filterMap]
  · intro p hp herr
    unfold warnFor
    cases hi : initializeDatabase env p with
    | error e => exact ⟨e, rfl⟩
    | ok u =>
      rw [hi] at herr
      simp [isErrB] at herr

/-- Witness for claim C9: a concrete batch of three paths of which the
middle one fails. -/
theorem c9_witness :
    (initExec envW ["/good1", "/bad", "/good2"] "/tmp/db").1 = none
    ∧ (initExec envW ["/good1", "/bad", "/good2"] "/tmp/db").2
        = ["/good1", "/bad", "/good2"].filterMap (warnFor envW)
    ∧ (warnFor envW "/bad").isSome = true := by
  have h := c9_theorem envW ["/good1", "/bad", "/good2"] "/tmp/db" rfl (by decide)
  refine ⟨h.1, h.2.1, ?_⟩
  obtain ⟨e, he⟩ := h.2.2 "/bad" (by simp) (by rfl)
  rw [he]
  rfl

/-- Claim C10: when the globally configured database path carries a scheme,
the `init` command ignores every positional PATH argument — its outcome is
the same for any argument list — and initializes only that networked
database. -/
theorem c10_theorem (env : InitEnv) (args args2 : List String) (databasePath : String)
    (h : HasScheme databasePath = true) :
    initExec env args databasePath = (none, initLoop env [databasePath])
    ∧ initExec env args databasePath = initExec env args2 databasePath := by
  constructor <;> simp [initExec, h]

/-- Witness for claim C10 at a concrete networked database path and
non-trivial positional arguments. -/
theorem c10_witness :
    initExec envW ["/a", "/b"] "mysql://host/db" = (none, initLoop envW ["mysql://host/db"]) :=
  (c10_theorem envW ["/a", "/b"] [] "mysql://host/db" rfl).1
